import Mathlib

/-!
Verification development for the `lab-crisis-automation` repository.

The executable logic under `src/` is the dashboard builder
`scripts/build_dashboard.js`: it loads up to three JSON report files
(`health_report.json`, `repo_analysis.json`, `performance_analysis.json`),
builds display sections with default-on-missing field access, renders a
single self-contained HTML page, writes it to `dashboard.html`, and exits 0.
This file gives a shallow embedding of that script and proves the frozen
claims about it.  The Notion webhook verification handshake is documented in
the repository (NOTION_WEBHOOK_SETUP.md) but its server code is not under
`src/`; it is modelled from the specification where a claim needs it.
-/

namespace LabCrisis

/-- JSON values as consumed by the dashboard builder.  JSON numbers are
modelled as integers: no claim under study depends on fractional numeric
values, and JS `n.toFixed(1)` on an integer n renders as `toString n ++ ".0"`.
A parsed JSON object is a key/value list; `JSON.parse` yields one binding per
key, so lookup of the first binding is lookup of the only binding. -/
inductive Json where
  | null
  | bool (b : Bool)
  | num (n : Int)
  | str (s : String)
  | arr (elems : List Json)
  | obj (fields : List (String × Json))

/-- Whether a value is JS `null` (the one JSON value on which property access
throws a TypeError). -/
def Json.isNull : Json → Bool
  | .null => true
  | _ => false

/-- JS truthiness of a JSON value: `null`, `false`, `0` and `""` are falsy;
every other JSON value (including `[]` and an empty object) is truthy. -/
def Json.truthy : Json → Bool
  | .null => false
  | .bool b => b
  | .num n => n != 0
  | .str s => !(s == "")
  | .arr _ => true
  | .obj _ => true

/-- JS property access `v.k` on a JSON value: object fields by name; arrays
and strings expose their `length`; on the remaining primitives every property
reads as `undefined` (`none`).  A `null`/`undefined` base is only ever
dereferenced through optional chaining in the script, which `Option.bind`
models (`getProp Json.null k = none` matches `null?.k`). -/
def getProp : Json → String → Option Json
  | .obj fs, k => fs.lookup k
  | .arr xs, "length" => some (.num xs.length)
  | .str s, "length" => some (.num s.length)
  | _, _ => none

/-- Optional-chained access `o?.k` where `none` is JS `undefined`/`null`. -/
def oget (o : Option Json) (k : String) : Option Json :=
  o.bind (fun j => getProp j k)

/-- JS `x || d`: the left operand when it is present and truthy, otherwise
the default. -/
def orDefault (x : Option Json) (d : Json) : Json :=
  match x with
  | some v => if v.truthy then v else d
  | none => d

mutual
/-- JS string interpolation `${v}` of a JSON value.  An array stringifies as
its comma-joined elements (with `null` elements as the empty string), an
object as `[object Object]`. -/
def jsStr : Json → String
  | .null => "null"
  | .bool true => "true"
  | .bool false => "false"
  | .num n => toString n
  | .str s => s
  | .arr xs => String.intercalate "," (jsStrList xs)
  | .obj _ => "[object Object]"

/-- Elementwise stringification used by JS `Array.prototype.toString`. -/
def jsStrList : List Json → List String
  | [] => []
  | .null :: xs => "" :: jsStrList xs
  | x :: xs => jsStr x :: jsStrList xs
end

/-- JS string interpolation of a possibly-`undefined` value. -/
def jsStrU : Option Json → String
  | some v => jsStr v
  | none => "undefined"

/-- JS `Object.entries`: object fields in order; arrays and strings as
index/element pairs; other primitives have no own enumerable properties.
(The script only applies this to a truthy value or `{}`, never to `null`.) -/
def entries : Json → List (String × Json)
  | .obj fs => fs
  | .arr xs => xs.enum.map (fun p => (toString p.1, p.2))
  | .str s => s.toList.enum.map (fun p => (toString p.1, Json.str (String.singleton p.2)))
  | _ => []

/-- JS `x > 0` for the values reachable as `performance?.bottlenecks?.length`:
`undefined` and `null` compare false, a number by sign, a boolean via 0/1, a
string via numeric coercion (decimal integer literals; fractional numeric
strings are outside the integer number model and compare false). -/
def jsGtZeroU : Option Json → Bool
  | some (.num n) => decide (0 < n)
  | some (.bool b) => b
  | some (.str s) =>
    (match (s.trim).toInt? with
     | some n => decide (0 < n)
     | none => false)
  | _ => false

/-- JS `Number.prototype.toFixed(1)` on an integer-modelled number. -/
def toFixed1 (n : Int) : String :=
  toString n ++ ".0"


def htmlP1 : String :=
  "<!DOCTYPE html>\n<html lang=\"en\">\n<head>\n    <meta charset=\"UTF-8\">\n    <meta name=\"viewport\" content=\"width=device-width, initial-scale=1.0\">\n    <title>"
def htmlP2 : String :=
  "</title>\n    <style>\n        * \x7b margin: 0; padding: 0; box-sizing: border-box; \x7d\n        body \x7b\n            font-family: -apple-system, BlinkMacSystemFont, \x27Segoe UI\x27, Roboto, sans-serif;\n            background: linear-gradient(135deg, #667eea 0%, #764ba2 100%);\n            min-height: 100vh;\n            padding: 20px;\n        \x7d\n        .container \x7b\n            max-width: 1400px;\n            margin: 0 auto;\n        \x7d\n        h1 \x7b\n            color: white;\n            text-align: center;\n            margin-bottom: 30px;\n            font-size: 2.5em;\n            text-shadow: 2px 2px 4px rgba(0,0,0,0.2);\n        \x7d\n        .dashboard-grid \x7b\n            display: grid;\n            grid-template-columns: repeat(auto-fit, minmax(350px, 1fr));\n            gap: 20px;\n        \x7d\n        .card \x7b\n            background: white;\n            border-radius: 15px;\n            padding: 25px;\n            box-shadow: 0 10px 30px rgba(0,0,0,0.1);\n            transition: transform 0.3s;\n        \x7d\n        .card:hover \x7b\n            transform: translateY(-5px);\n        \x7d\n        .card h2 \x7b\n            color: #333;\n            margin-bottom: 20px;\n            font-size: 1.4em;\n            border-bottom: 2px solid #667eea;\n            padding-bottom: 10px;\n        \x7d\n        .metric \x7b\n            display: flex;\n            justify-content: space-between;\n            align-items: center;\n            margin: 15px 0;\n            padding: 10px;\n            background: #f8f9fa;\n            border-radius: 8px;\n        \x7d\n        .metric-value \x7b\n            font-size: 1.8em;\n            font-weight: bold;\n            color: #667eea;\n        \x7d\n        .status-badge \x7b\n            display: inline-block;\n            padding: 5px 15px;\n            border-radius: 20px;\n            font-weight: bold;\n            text-transform: uppercase;\n            font-size: 0.85em;\n        \x7d\n        .status-healthy \x7b background: #d4edda; color: #155724; \x7d\n        .status-warning \x7b background: #fff3cd; color: #856404; \x7d\n        .status-critical \x7b background: #f8d7da; color: #721c24; \x7d\n        .alert \x7b\n            padding: 15px;\n            border-radius: 8px;\n            margin: 10px 0;\n            border-left: 4px solid;\n        \x7d\n        .alert-high \x7b background: #f8d7da; border-color: #dc3545; \x7d\n        .alert-medium \x7b background: #fff3cd; border-color: #ffc107; \x7d\n        .alert-low \x7b background: #d1ecf1; border-color: #17a2b8; \x7d\n        .timestamp \x7b\n            text-align: center;\n            color: white;\n            margin-top: 30px;\n            opacity: 0.8;\n        \x7d\n        .progress-bar \x7b\n            width: 100%;\n            height: 25px;\n            background: #e9ecef;\n            border-radius: 12px;\n            overflow: hidden;\n            margin: 10px 0;\n        \x7d\n        .progress-fill \x7b\n            height: 100%;\n            background: linear-gradient(90deg, #667eea, #764ba2);\n            transition: width 0.5s;\n            display: flex;\n            align-items: center;\n            justify-content: center;\n            color: white;\n            font-weight: bold;\n        \x7d\n    </style>\n</head>\n<body>\n    <div class=\"container\">\n        <h1>🧪 "
def htmlP3 : String :=
  "</h1>\n        \n        <div class=\"dashboard-grid\">\n            <!-- System Health Card -->\n            <div class=\"card\">\n                <h2>System Health</h2>\n                <div class=\"status-badge status-"
def htmlP4 : String :=
  "\">\n                    "
def htmlP5 : String :=
  "\n                </div>\n                "
def htmlP6 : String :=
  "\n            </div>\n            \n            <!-- Performance Score Card -->\n            <div class=\"card\">\n                <h2>Performance Score</h2>\n                "
def htmlP7 : String :=
  "\n            </div>\n            \n            <!-- Repository Status Card -->\n            <div class=\"card\">\n                <h2>Repository Status</h2>\n                "
def htmlP8 : String :=
  "\n            </div>\n            \n            <!-- Alerts Card -->\n            <div class=\"card\">\n                <h2>Active Alerts</h2>\n                "
def htmlP9 : String :=
  "\n            </div>\n            \n            <!-- Lab Metrics Card -->\n            <div class=\"card\">\n                <h2>Lab Operations</h2>\n                "
def htmlP10 : String :=
  "\n            </div>\n            \n            <!-- Workflow Status Card -->\n            <div class=\"card\">\n                <h2>Workflow Status</h2>\n                "
def htmlP11 : String :=
  "\n            </div>\n        </div>\n        \n        <div class=\"timestamp\">\n            Last Updated: "
def htmlP12 : String :=
  "\n        </div>\n    </div>\n    \n    <script>\n        // Auto-refresh every 60 seconds\n        setTimeout(() => location.reload(), 60000);\n    </script>\n</body>\n</html>"

def hmT1 : String :=
  "\n            <div class=\"metric\">\n                <span>"
def hmT2 : String :=
  "</span>\n                <span class=\"metric-value\">"
def hmT3 : String :=
  "</span>\n            </div>\n        "

def pmT1 : String :=
  "\n            <div class=\"metric\">\n                <span>Overall Score</span>\n                <span class=\"metric-value\">"
def pmT2 : String :=
  "%</span>\n            </div>\n            <div class=\"metric\">\n                <span>Grade</span>\n                <span class=\"metric-value\">"
def pmT3 : String :=
  "</span>\n            </div>\n            <div class=\"progress-bar\">\n                <div class=\"progress-fill\" style=\"width: "
def pmT4 : String :=
  "%\">\n                    "
def pmT5 : String :=
  "%\n                </div>\n            </div>\n        "

def rsT1 : String :=
  "\n            <div class=\"metric\">\n                <span>Total Repositories</span>\n                <span class=\"metric-value\">"
def rsT2 : String :=
  "</span>\n            </div>\n            <div class=\"metric\">\n                <span>Healthy</span>\n                <span class=\"metric-value\">"
def rsT3 : String :=
  "</span>\n            </div>\n            <div class=\"metric\">\n                <span>With Tests</span>\n                <span class=\"metric-value\">"
def rsT4 : String :=
  "</span>\n            </div>\n        "

def alT1 : String :=
  "\n            <div class=\"alert alert-"
def alT2 : String :=
  "\">\n                <strong>"
def alT3 : String :=
  "</strong><br>\n                "
def alT4 : String :=
  "\n            </div>\n        "

def lmT1 : String :=
  "\n            <div class=\"metric\">\n                <span>TAT Compliance</span>\n                <span class=\"metric-value\">"
def lmT2 : String :=
  "%</span>\n            </div>\n            <div class=\"metric\">\n                <span>QC Pass Rate</span>\n                <span class=\"metric-value\">"
def lmT3 : String :=
  "%</span>\n            </div>\n            <div class=\"metric\">\n                <span>Samples Today</span>\n                <span class=\"metric-value\">"
def lmT4 : String :=
  "</span>\n            </div>\n        "

def wfT1 : String :=
  "\n            <div class=\"metric\">\n                <span>Automation Rate</span>\n                <span class=\"metric-value\">"
def wfT2 : String :=
  "%</span>\n            </div>\n            <div class=\"metric\">\n                <span>Pipeline Success</span>\n                <span class=\"metric-value\">"
def wfT3 : String :=
  "%</span>\n            </div>\n            <div class=\"metric\">\n                <span>Data Quality</span>\n                <span class=\"metric-value\">"
def wfT4 : String :=
  "%</span>\n            </div>\n        "

/-- An active alert as assembled in `buildSections` from one bottleneck
record: `{severity: b.severity, area: b.area, message, impact: b.impact}`. -/
structure Alert where
  severity : Option Json
  area : Option Json
  message : String
  impact : Option Json

/-- A display section pushed by `buildSections` (`{id, title, type, data}`). -/
structure Section where
  id : String
  title : String
  type : String
  data : Json

/-- The `dashboardData` aggregate of `DashboardBuilder`.  The `health`,
`repositories` and `performance` slots start out unset (`undefined`), so they
are `Option Json`.  `timestamp` is the ISO time taken in the constructor;
time is passed in explicitly since the embedding is pure. -/
structure DashboardData where
  timestamp : String
  title : String
  version : String
  sections : List Section
  metrics : Json
  alerts : List Alert
  health : Option Json
  repositories : Option Json
  performance : Option Json

/-- The constructor's initial `dashboardData`. -/
def initData (nowIso : String) : DashboardData :=
  { timestamp := nowIso
    title := "Lab Automation Dashboard"
    version := "2.0.0"
    sections := []
    metrics := .obj []
    alerts := []
    health := none
    repositories := none
    performance := none }

/-- `loadReports`: each of the three report files is read and JSON-parsed
inside its own try/catch.  The read-and-parse outcome of each file is passed
in as `Except String Json` (the error is the thrown message, which the catch
ignores); on success the corresponding slot is set and a success line logged,
on failure a warning is logged and the slot is left unset.  Returns the
updated aggregate and the console output. -/
def loadReports (d : DashboardData) (h r p : Except String Json) :
    DashboardData × List String :=
  let l0 := ["📊 Loading analysis reports..."]
  let (d1, l1) :=
    match h with
    | .ok j => ({ d with health := some j }, ["✓ Health report loaded"])
    | .error _ => (d, ["⚠️  Health report not found"])
  let (d2, l2) :=
    match r with
    | .ok j => ({ d1 with repositories := some j }, ["✓ Repository analysis loaded"])
    | .error _ => (d1, ["⚠️  Repository analysis not found"])
  let (d3, l3) :=
    match p with
    | .ok j => ({ d2 with performance := some j }, ["✓ Performance analysis loaded"])
    | .error _ => (d2, ["⚠️  Performance analysis not found"])
  (d3, l0 ++ l1 ++ l2 ++ l3)

/-- The System Health section pushed by `buildSections`. -/
def secHealth (d : DashboardData) (nowIso : String) : Section :=
  { id := "system-health", title := "System Health", type := "status"
    data := .obj [
      ("status", orDefault (oget d.health "status") (.str "unknown")),
      ("checks", orDefault (oget d.health "checks") (.obj [])),
      ("lastUpdate", orDefault (oget d.health "timestamp") (.str nowIso))] }

/-- The Performance Metrics section pushed by `buildSections`. -/
def secPerf (d : DashboardData) : Section :=
  { id := "performance-metrics", title := "Performance Metrics", type := "metrics"
    data := .obj [
      ("tatCompliance",
        orDefault (oget (oget (oget d.performance "lab_operations") "tat_compliance") "current") (.num 0)),
      ("qcPassRate",
        orDefault (oget (oget (oget d.performance "lab_operations") "qc_performance") "pass_rate") (.num 0)),
      ("automationRate",
        orDefault (oget (oget (oget d.performance "workflow_efficiency") "automation_rate") "current") (.num 0)),
      ("systemUptime",
        orDefault (oget (oget (oget d.performance "system_performance") "availability") "uptime_percent") (.num 0))] }

/-- The Repository Status section pushed by `buildSections`. -/
def secRepo (d : DashboardData) : Section :=
  { id := "repository-status", title := "Repository Status", type := "table"
    data := .obj [
      ("repositories", orDefault (oget d.repositories "repositories") (.arr [])),
      ("summary", orDefault (oget d.repositories "summary") (.obj []))] }

/-- The map body of the alerts assignment:
`b => ({severity: b.severity, area: b.area, message: ..., impact: b.impact})`
(for a non-`null` element, on which property access does not throw). -/
def alertOf (b : Json) : Alert :=
  { severity := getProp b "severity"
    area := getProp b "area"
    message := jsStrU (getProp b "area") ++ ": " ++ jsStrU (getProp b "current_value")
      ++ " (target: " ++ jsStrU (getProp b "target_value") ++ ")"
    impact := getProp b "impact" }

/-- `bottlenecks.map(b => ...)` with JS exception behaviour: reading
`b.severity` on a `null` element throws a TypeError that nothing catches. -/
def mapAlerts : List Json → Except String (List Alert)
  | [] => .ok []
  | .null :: _ => .error "TypeError: Cannot read properties of null (reading severity)"
  | b :: bs =>
    match mapAlerts bs with
    | .ok rest => .ok (alertOf b :: rest)
    | .error e => .error e

/-- `buildSections`: pushes the three fixed sections, then, when
`performance?.bottlenecks?.length > 0`, replaces `alerts` with the mapped
bottleneck list.  When that condition holds but `bottlenecks` is not an
array (e.g. a non-empty string), `.map` is not a function and the uncaught
TypeError is the `Except.error` case; likewise for a `null` element. -/
def buildSections (d : DashboardData) (nowIso : String) : Except String DashboardData :=
  if jsGtZeroU (oget (oget d.performance "bottlenecks") "length") then
    match oget d.performance "bottlenecks" with
    | some (.arr xs) =>
      match mapAlerts xs with
      | .ok alerts =>
        .ok { d with
              sections := d.sections ++ [secHealth d nowIso, secPerf d, secRepo d]
              alerts := alerts }
      | .error e => .error e
    | _ => .error "TypeError: this.dashboardData.performance.bottlenecks.map is not a function"
  else
    .ok { d with sections := d.sections ++ [secHealth d nowIso, secPerf d, secRepo d] }

/-- For the equivalence claim about `buildSections`: the same function with
the three `sections.push` statements removed, keeping only the alerts
assignment. -/
def buildSectionsNoPush (d : DashboardData) : Except String DashboardData :=
  if jsGtZeroU (oget (oget d.performance "bottlenecks") "length") then
    match oget d.performance "bottlenecks" with
    | some (.arr xs) =>
      match mapAlerts xs with
      | .ok alerts => .ok { d with alerts := alerts }
      | .error e => .error e
    | _ => .error "TypeError: this.dashboardData.performance.bottlenecks.map is not a function"
  else
    .ok d

/-- One health-metric row of `generateHealthMetrics`: the key with
underscores replaced by spaces, and the value via `toFixed(1)` when it is a
number, plain interpolation otherwise. -/
def renderMetric (kv : String × Json) : String :=
  hmT1 ++ (kv.1.replace "_" " ") ++ hmT2 ++
    (match kv.2 with
     | .num n => toFixed1 n
     | v => jsStr v) ++ hmT3

/-- `generateHealthMetrics`: placeholder when `health` is unset or falsy;
otherwise the first three `Object.entries(health.metrics || {})`, rendered
and joined with `''`. -/
def generateHealthMetrics (d : DashboardData) : String :=
  match d.health with
  | none => "<p>No health data available</p>"
  | some health =>
    if health.truthy then
      String.join (((entries (orDefault (getProp health "metrics") (.obj []))).take 3).map renderMetric)
    else "<p>No health data available</p>"

/-- `generatePerformanceMetrics`: placeholder when
`performance?.performance_score` is absent or falsy; otherwise the overall
score (three times) and the grade with `|| 0` / `|| 'N/A'` defaults. -/
def generatePerformanceMetrics (d : DashboardData) : String :=
  match oget d.performance "performance_score" with
  | none => "<p>No performance data available</p>"
  | some perf =>
    if perf.truthy then
      pmT1 ++ jsStr (orDefault (getProp perf "overall") (.num 0)) ++ pmT2
        ++ jsStr (orDefault (getProp perf "grade") (.str "N/A")) ++ pmT3
        ++ jsStr (orDefault (getProp perf "overall") (.num 0)) ++ pmT4
        ++ jsStr (orDefault (getProp perf "overall") (.num 0)) ++ pmT5
    else "<p>No performance data available</p>"

/-- `generateRepoStatus`: placeholder when `repositories?.summary` is absent
or falsy; otherwise the three summary counters with `|| 0` defaults. -/
def generateRepoStatus (d : DashboardData) : String :=
  match oget d.repositories "summary" with
  | none => "<p>No repository data available</p>"
  | some repos =>
    if repos.truthy then
      rsT1 ++ jsStr (orDefault (getProp repos "total_repositories") (.num 0)) ++ rsT2
        ++ jsStr (orDefault (getProp repos "healthy") (.num 0)) ++ rsT3
        ++ jsStr (orDefault (getProp repos "with_tests") (.num 0)) ++ rsT4
    else "<p>No repository data available</p>"

/-- One alert row of `generateAlerts`. -/
def renderAlert (alert : Alert) : String :=
  alT1 ++ jsStrU alert.severity ++ alT2 ++ jsStrU alert.area ++ alT3
    ++ alert.message ++ alT4

/-- `generateAlerts`: a green no-alerts line when the list is empty,
otherwise `alerts.slice(0, 3)` rendered and joined with `''`. -/
def generateAlerts (d : DashboardData) : String :=
  if d.alerts.isEmpty then
    "<p style=\"color: green;\">✓ No active alerts</p>"
  else
    String.join ((d.alerts.take 3).map renderAlert)

/-- `generateLabMetrics`: placeholder when `performance?.lab_operations` is
absent or falsy; otherwise TAT compliance, QC pass rate and daily sample
volume with `|| 0` defaults, each path independently optional. -/
def generateLabMetrics (d : DashboardData) : String :=
  match oget d.performance "lab_operations" with
  | none => "<p>No lab data available</p>"
  | some lab =>
    if lab.truthy then
      lmT1 ++ jsStr (orDefault (oget (getProp lab "tat_compliance") "current") (.num 0)) ++ lmT2
        ++ jsStr (orDefault (oget (getProp lab "qc_performance") "pass_rate") (.num 0)) ++ lmT3
        ++ jsStr (orDefault (oget (getProp lab "sample_volume") "daily_average") (.num 0)) ++ lmT4
    else "<p>No lab data available</p>"

/-- `generateWorkflowStatus`: placeholder when
`performance?.workflow_efficiency` is absent or falsy; otherwise the three
workflow rates with `|| 0` defaults. -/
def generateWorkflowStatus (d : DashboardData) : String :=
  match oget d.performance "workflow_efficiency" with
  | none => "<p>No workflow data available</p>"
  | some workflow =>
    if workflow.truthy then
      wfT1 ++ jsStr (orDefault (oget (getProp workflow "automation_rate") "current") (.num 0)) ++ wfT2
        ++ jsStr (orDefault (oget (getProp workflow "pipeline_performance") "github_actions_success_rate") (.num 0)) ++ wfT3
        ++ jsStr (orDefault (oget (getProp workflow "data_quality") "validation_pass_rate") (.num 0)) ++ wfT4
    else "<p>No workflow data available</p>"

/-- The status-badge class suffix `health?.status || 'unknown'`. -/
def statusClass (d : DashboardData) : String :=
  jsStr (orDefault (oget d.health "status") (.str "unknown"))

/-- The status-badge text `health?.status || 'Unknown'`. -/
def statusText (d : DashboardData) : String :=
  jsStr (orDefault (oget d.health "status") (.str "Unknown"))

/-- The HTML template of `generateHTML` up to (and excluding) the
`new Date().toLocaleString()` interpolation of the timestamp footer: the
constant pieces and the first ten interpolations, in source order. -/
def htmlBeforeTime (d : DashboardData) : String :=
  htmlP1 ++ d.title ++ htmlP2 ++ d.title ++ htmlP3 ++ statusClass d ++ htmlP4
    ++ statusText d ++ htmlP5 ++ generateHealthMetrics d ++ htmlP6
    ++ generatePerformanceMetrics d ++ htmlP7 ++ generateRepoStatus d ++ htmlP8
    ++ generateAlerts d ++ htmlP9 ++ generateLabMetrics d ++ htmlP10
    ++ generateWorkflowStatus d ++ htmlP11

/-- The full HTML template of `generateHTML`: the part before the timestamp,
the `new Date().toLocaleString()` value `nowLocale` — the only time-dependent
interpolation — and the constant tail. -/
def generateHTMLstr (d : DashboardData) (nowLocale : String) : String :=
  htmlBeforeTime d ++ nowLocale ++ htmlP12

/-- The fixed output path of the dashboard (relative to the working
directory). -/
def dashboardPath : String :=
  "dashboard.html"

/-- `generateHTML`: renders the template and writes it with
`fs.writeFileSync`; a write failure throws (nothing catches it), a success
returns the output path.  `writeOk` is whether the write succeeds. -/
def generateHTML (d : DashboardData) (nowLocale : String) (writeOk : Bool) :
    Except String (String × String) :=
  if writeOk then .ok (generateHTMLstr d nowLocale, dashboardPath)
  else .error "EACCES: permission denied, open dashboard.html"

/-- The aggregate after `loadReports`: the state handed to `buildSections`
and the renderer, for stating per-field claims. -/
def mkData (h r p : Except String Json) (nowIso : String) : DashboardData :=
  (loadReports (initData nowIso) h r p).1

/-- `build` followed by `process.exit(builder.build())`: load the reports,
build the sections, generate and write the HTML, return 0.  The result
carries the written HTML alongside the return value; an uncaught exception
(write failure, or the bottleneck TypeError) is the error case. -/
def buildResult (h r p : Except String Json) (nowIso nowLocale : String)
    (writeOk : Bool) : Except String (String × Nat) :=
  match buildSections (mkData h r p nowIso) nowIso with
  | .error e => .error e
  | .ok d1 =>
    match generateHTML d1 nowLocale writeOk with
    | .error e => .error e
    | .ok (html, _) => .ok (html, 0)

/-- The process exit code: `build()`'s return value 0 through
`process.exit`, and 1 when an uncaught exception terminates node. -/
def exitCode (h r p : Except String Json) (nowIso nowLocale : String)
    (writeOk : Bool) : Nat :=
  match buildResult h r p nowIso nowLocale writeOk with
  | .ok (_, c) => c
  | .error _ => 1

/-- The HTML written by a successful build. -/
def builtHtml (h r p : Except String Json) (nowIso nowLocale : String) :
    Option String :=
  match buildResult h r p nowIso nowLocale true with
  | .ok (html, _) => some html
  | .error _ => none

/-- Whether the value at `performance?.bottlenecks` lets `buildSections`
run to completion: either the `length > 0` guard is false, or the value is
an array with no `null` elements (so `.map` exists and every property read
succeeds). -/
def bottlenecksSafe (p : Option Json) : Bool :=
  if jsGtZeroU (oget (oget p "bottlenecks") "length") then
    match oget p "bottlenecks" with
    | some (.arr xs) => xs.all (fun b => !b.isNull)
    | _ => false
  else
    true

/-- The alerts list after the alerts assignment of `buildSections`, as a
function of the loaded performance report and the previous alerts (used to
state what a non-crashing `buildSections` does). -/
def alertsAfter (p : Option Json) (old : List Alert) : List Alert :=
  if jsGtZeroU (oget (oget p "bottlenecks") "length") then
    match oget p "bottlenecks" with
    | some (.arr xs) => xs.map alertOf
    | _ => old
  else
    old

/-- Modelled from the spec: the webhook server answering Notion's URL
verification is part of this repository but its code is not under `src/`
(only the setup documents NOTION_WEBHOOK_SETUP.md and
NOTION_WEBHOOK_CONFIGURATION.md describe it).  Per spec §4.1, a POST body
`{"challenge": <string>}` is answered with status 200 and the JSON body
`{"challenge": <same string>}`, verbatim; other bodies take the event path,
which is outside this model (`none`). -/
def webhookVerify (body : Json) : Option (Nat × Json) :=
  match body with
  | .obj [("challenge", .str x)] => some (200, .obj [("challenge", .str x)])
  | _ => none

theorem mkData_title (h r p : Except String Json) (t : String) :
    (mkData h r p t).title = "Lab Automation Dashboard" := by
  cases h <;> cases r <;> cases p <;> rfl

theorem mkData_health (h r p : Except String Json) (t : String) :
    (mkData h r p t).health = h.toOption := by
  cases h <;> cases r <;> cases p <;> rfl

theorem mkData_repositories (h r p : Except String Json) (t : String) :
    (mkData h r p t).repositories = r.toOption := by
  cases h <;> cases r <;> cases p <;> rfl

theorem mkData_performance (h r p : Except String Json) (t : String) :
    (mkData h r p t).performance = p.toOption := by
  cases h <;> cases r <;> cases p <;> rfl

theorem mkData_alerts (h r p : Except String Json) (t : String) :
    (mkData h r p t).alerts = [] := by
  cases h <;> cases r <;> cases p <;> rfl

theorem mapAlerts_ok (xs : List Json) (hs : xs.all (fun b => !b.isNull) = true) :
    mapAlerts xs = .ok (xs.map alertOf) := by
  induction xs with
  | nil => rfl
  | cons b bs ih =>
    rw [List.all_cons] at hs
    cases b <;> simp_all [mapAlerts, Json.isNull]

theorem mapAlerts_err (xs : List Json) (hs : xs.all (fun b => !b.isNull) = false) :
    ∃ e, mapAlerts xs = .error e := by
  induction xs with
  | nil => simp [List.all_nil] at hs
  | cons b bs ih =>
    cases b
    case null => exact ⟨_, rfl⟩
    all_goals
      simp only [List.all_cons, Json.isNull, Bool.not_false, Bool.true_and] at hs
    all_goals
      obtain ⟨e, he⟩ := ih hs
    all_goals
      exact ⟨e, by simp [mapAlerts, he]⟩

theorem buildSections_safe (d : DashboardData) (t : String)
    (hs : bottlenecksSafe d.performance = true) :
    buildSections d t =
      .ok { d with
            sections := d.sections ++ [secHealth d t, secPerf d, secRepo d]
            alerts := alertsAfter d.performance d.alerts } := by
  unfold bottlenecksSafe at hs
  unfold buildSections alertsAfter
  cases hc : jsGtZeroU (oget (oget d.performance "bottlenecks") "length") with
  | false => simp [hc]
  | true =>
    simp only [hc, if_true, reduceIte] at hs ⊢
    cases hbot : oget d.performance "bottlenecks" with
    | none => rw [hbot] at hs; simp at hs
    | some v =>
      rw [hbot] at hs
      cases v
      case arr xs =>
        dsimp only at hs ⊢
        rw [mapAlerts_ok xs hs]
      all_goals exact Bool.noConfusion hs

theorem buildSections_crash (d : DashboardData) (t : String)
    (hs : bottlenecksSafe d.performance = false) :
    ∃ e, buildSections d t = .error e := by
  unfold bottlenecksSafe at hs
  unfold buildSections
  cases hc : jsGtZeroU (oget (oget d.performance "bottlenecks") "length") with
  | false => simp [hc] at hs
  | true =>
    simp only [hc, if_true, reduceIte] at hs ⊢
    cases hbot : oget d.performance "bottlenecks" with
    | none => exact ⟨_, rfl⟩
    | some v =>
      rw [hbot] at hs
      cases v
      case arr xs =>
        dsimp only at hs ⊢
        obtain ⟨e, he⟩ := mapAlerts_err xs hs
        exact ⟨e, by rw [he]⟩
      all_goals exact ⟨_, rfl⟩

theorem generateHealthMetrics_congr {d1 d2 : DashboardData} (h : d1.health = d2.health) :
    generateHealthMetrics d1 = generateHealthMetrics d2 := by
  unfold generateHealthMetrics; rw [h]

theorem statusClass_congr {d1 d2 : DashboardData} (h : d1.health = d2.health) :
    statusClass d1 = statusClass d2 := by
  unfold statusClass; rw [h]

theorem statusText_congr {d1 d2 : DashboardData} (h : d1.health = d2.health) :
    statusText d1 = statusText d2 := by
  unfold statusText; rw [h]

theorem generatePerformanceMetrics_congr {d1 d2 : DashboardData}
    (h : d1.performance = d2.performance) :
    generatePerformanceMetrics d1 = generatePerformanceMetrics d2 := by
  unfold generatePerformanceMetrics; rw [h]

theorem generateLabMetrics_congr {d1 d2 : DashboardData}
    (h : d1.performance = d2.performance) :
    generateLabMetrics d1 = generateLabMetrics d2 := by
  unfold generateLabMetrics; rw [h]

theorem generateWorkflowStatus_congr {d1 d2 : DashboardData}
    (h : d1.performance = d2.performance) :
    generateWorkflowStatus d1 = generateWorkflowStatus d2 := by
  unfold generateWorkflowStatus; rw [h]

theorem generateRepoStatus_congr {d1 d2 : DashboardData}
    (h : d1.repositories = d2.repositories) :
    generateRepoStatus d1 = generateRepoStatus d2 := by
  unfold generateRepoStatus; rw [h]

theorem generateAlerts_congr {d1 d2 : DashboardData} (h : d1.alerts = d2.alerts) :
    generateAlerts d1 = generateAlerts d2 := by
  unfold generateAlerts; rw [h]

theorem htmlBeforeTime_congr {d1 d2 : DashboardData}
    (ht : d1.title = d2.title) (hh : d1.health = d2.health)
    (hp : d1.performance = d2.performance) (hr : d1.repositories = d2.repositories)
    (ha : d1.alerts = d2.alerts) :
    htmlBeforeTime d1 = htmlBeforeTime d2 := by
  unfold htmlBeforeTime
  rw [ht, statusClass_congr hh, statusText_congr hh, generateHealthMetrics_congr hh,
    generatePerformanceMetrics_congr hp, generateRepoStatus_congr hr,
    generateAlerts_congr ha, generateLabMetrics_congr hp, generateWorkflowStatus_congr hp]

theorem buildSectionsNoPush_safe (d : DashboardData)
    (hs : bottlenecksSafe d.performance = true) :
    buildSectionsNoPush d = .ok { d with alerts := alertsAfter d.performance d.alerts } := by
  unfold bottlenecksSafe at hs
  unfold buildSectionsNoPush alertsAfter
  cases hc : jsGtZeroU (oget (oget d.performance "bottlenecks") "length") with
  | false => simp [hc]
  | true =>
    simp only [hc, if_true, reduceIte] at hs ⊢
    cases hbot : oget d.performance "bottlenecks" with
    | none => rw [hbot] at hs; simp at hs
    | some v =>
      rw [hbot] at hs
      cases v
      case arr xs =>
        dsimp only at hs ⊢
        rw [mapAlerts_ok xs hs]
      all_goals exact Bool.noConfusion hs

/-- C1: for every string X, including the empty string, a POST of
`{"challenge": X}` to the webhook verification endpoint is answered with
status 200 and body exactly `{"challenge": X}` — the challenge echoed
verbatim, with no transformation. -/
theorem c1_challenge_echo (x : String) :
    webhookVerify (.obj [("challenge", .str x)])
      = some (200, .obj [("challenge", .str x)]) := rfl

/-- C2 (counterexample): load the health report exactly `{"status":"degraded"}`
(no metrics key, other reports failing).  The claim asserts the health-metrics
section then renders its "no health data" placeholder; it in fact renders as
the empty string — the placeholder renders only when the whole health report
is absent. -/
theorem c2_cex :
    generateHealthMetrics
      (mkData (.ok (.obj [("status", .str "degraded")])) (.error "ENOENT") (.error "ENOENT") "T")
      = "" ∧
    "" ≠ "<p>No health data available</p>" :=
  ⟨rfl, by decide⟩

/-- C2 (amended): a present truthy field passes through unchanged and only
missing fields fall back to defaults; but for health `{"status":"degraded"}`
with no metrics key the badge reads "degraded" while the health-metrics
section renders as the empty string — the "No health data available"
placeholder renders when the health report is absent, not when only its
metrics are. -/
theorem c2_partial_report (s t e1 e2 e3 : String) (hs : s ≠ "") :
    statusText (mkData (.ok (.obj [("status", .str s)])) (.error e2) (.error e3) t) = s ∧
    statusClass (mkData (.ok (.obj [("status", .str s)])) (.error e2) (.error e3) t) = s ∧
    generateHealthMetrics (mkData (.ok (.obj [("status", .str s)])) (.error e2) (.error e3) t) = "" ∧
    generateHealthMetrics (mkData (.error e1) (.error e2) (.error e3) t)
      = "<p>No health data available</p>" := by
  have hb : (s == "") = false := beq_eq_false_iff_ne.mpr hs
  refine ⟨?_, ?_, rfl, rfl⟩
  · simp [statusText, mkData, loadReports, initData, oget, getProp, orDefault,
      Json.truthy, jsStr, List.lookup, hb]
  · simp [statusClass, mkData, loadReports, initData, oget, getProp, orDefault,
      Json.truthy, jsStr, List.lookup, hb]

theorem c2_partial_report_witness :
    statusText (mkData (.ok (.obj [("status", .str "degraded")])) (.error "e") (.error "e") "T")
      = "degraded" ∧
    generateHealthMetrics
      (mkData (.ok (.obj [("status", .str "degraded")])) (.error "e") (.error "e") "T") = "" := by
  have hth := c2_partial_report "degraded" "T" "e" "e" "e" (by decide)
  exact ⟨hth.1, hth.2.2.1⟩

/-- C3: each of the three report files is loaded inside its own try/catch:
the loaded slot equals that file's own read/parse outcome whatever happens to
the other two, a failure leaves the slot absent and logs a warning, and no
failure aborts the render (the loader is a total function producing the
state the renderer consumes). -/
theorem c3_loader_isolation (t : String) (h r p : Except String Json) :
    (loadReports (initData t) h r p).1.health = h.toOption ∧
    (loadReports (initData t) h r p).1.repositories = r.toOption ∧
    (loadReports (initData t) h r p).1.performance = p.toOption ∧
    (h.toOption = none → "⚠️  Health report not found" ∈ (loadReports (initData t) h r p).2) ∧
    (r.toOption = none → "⚠️  Repository analysis not found" ∈ (loadReports (initData t) h r p).2) ∧
    (p.toOption = none → "⚠️  Performance analysis not found" ∈ (loadReports (initData t) h r p).2) := by
  cases h <;> cases r <;> cases p <;>
    simp [loadReports, initData, Except.toOption]

theorem c3_loader_isolation_witness :
    (loadReports (initData "") (.error "ENOENT") (.error "ENOENT") (.error "SyntaxError")).1.health = none ∧
    "⚠️  Health report not found"
      ∈ (loadReports (initData "") (.error "ENOENT") (.error "ENOENT") (.error "SyntaxError")).2 ∧
    "⚠️  Repository analysis not found"
      ∈ (loadReports (initData "") (.error "ENOENT") (.error "ENOENT") (.error "SyntaxError")).2 ∧
    "⚠️  Performance analysis not found"
      ∈ (loadReports (initData "") (.error "ENOENT") (.error "ENOENT") (.error "SyntaxError")).2 := by
  have hth := c3_loader_isolation "" (.error "ENOENT") (.error "ENOENT") (.error "SyntaxError")
  exact ⟨hth.1, hth.2.2.2.1 rfl, hth.2.2.2.2.1 rfl, hth.2.2.2.2.2 rfl⟩

/-- C4 (counterexample): with every report absent, the status badge's source
path is missing, yet its rendered text is "Unknown" — capital U — which is
neither the literal "unknown" nor "N/A" the claim allows. -/
theorem c4_cex :
    statusText (mkData (.error "ENOENT") (.error "ENOENT") (.error "ENOENT") "T") = "Unknown" ∧
    "Unknown" ≠ "unknown" ∧ "Unknown" ≠ "N/A" :=
  ⟨rfl, by decide, by decide⟩

/-- C4 (amended): default substitution is applied independently per
individual field access: a numeric display field whose source path is
missing renders as 0 even when sibling fields are present, a missing grade
renders as "N/A", the badge class defaults to "unknown" while the badge text
defaults to "Unknown" (capitalised), and the section data substitutes
`.num 0` / `"unknown"` per field. -/
theorem c4_field_defaults (t e1 e2 : String) (n : Int) (hn : n ≠ 0) :
    generateLabMetrics (mkData (.error e1) (.error e2)
        (.ok (.obj [("lab_operations", .obj [("tat_compliance", .obj [("current", .num n)])])])) t)
      = lmT1 ++ toString n ++ lmT2 ++ "0" ++ lmT3 ++ "0" ++ lmT4 ∧
    generatePerformanceMetrics (mkData (.error e1) (.error e2)
        (.ok (.obj [("performance_score", .obj [("overall", .num n)])])) t)
      = pmT1 ++ toString n ++ pmT2 ++ "N/A" ++ pmT3 ++ toString n ++ pmT4 ++ toString n ++ pmT5 ∧
    statusClass (mkData (.error e1) (.error e2) (.error e1) t) = "unknown" ∧
    statusText (mkData (.error e1) (.error e2) (.error e1) t) = "Unknown" ∧
    (secPerf (mkData (.error e1) (.error e2) (.error e1) t)).data
      = .obj [("tatCompliance", .num 0), ("qcPassRate", .num 0),
              ("automationRate", .num 0), ("systemUptime", .num 0)] ∧
    (secHealth (mkData (.error e1) (.error e2) (.error e1) t) t).data
      = .obj [("status", .str "unknown"), ("checks", .obj []), ("lastUpdate", .str t)] := by
  have hb : (n == 0) = false := beq_eq_false_iff_ne.mpr hn
  have h0 : toString (0 : Int) = "0" := rfl
  refine ⟨?_, ?_, rfl, rfl, rfl, rfl⟩
  · simp [generateLabMetrics, mkData, loadReports, initData, oget, getProp, orDefault,
      Json.truthy, jsStr, List.lookup, bne, hb, h0]
  · simp [generatePerformanceMetrics, mkData, loadReports, initData, oget, getProp, orDefault,
      Json.truthy, jsStr, List.lookup, bne, hb, h0]

theorem c4_field_defaults_witness :
    generateLabMetrics (mkData (.error "ENOENT") (.error "ENOENT")
        (.ok (.obj [("lab_operations", .obj [("tat_compliance", .obj [("current", .num 85)])])])) "T")
      = lmT1 ++ "85" ++ lmT2 ++ "0" ++ lmT3 ++ "0" ++ lmT4 ∧
    statusText (mkData (.error "ENOENT") (.error "ENOENT") (.error "ENOENT") "T") = "Unknown" := by
  have hth := c4_field_defaults "T" "ENOENT" "ENOENT" 85 (by decide)
  exact ⟨hth.1, hth.2.2.2.1⟩

theorem generateHTMLstr_congr {d1 d2 : DashboardData} (t : String)
    (ht : d1.title = d2.title) (hh : d1.health = d2.health)
    (hp : d1.performance = d2.performance) (hr : d1.repositories = d2.repositories)
    (ha : d1.alerts = d2.alerts) :
    generateHTMLstr d1 t = generateHTMLstr d2 t := by
  unfold generateHTMLstr
  rw [htmlBeforeTime_congr ht hh hp hr ha]

/-- The state after a non-crashing `buildSections`, for the whole-build
theorems. -/
def builtState (h r p : Except String Json) (t : String) : DashboardData :=
  { mkData h r p t with
    sections := (mkData h r p t).sections
      ++ [secHealth (mkData h r p t) t, secPerf (mkData h r p t), secRepo (mkData h r p t)]
    alerts := alertsAfter (mkData h r p t).performance (mkData h r p t).alerts }

theorem builtHtml_safe (h r p : Except String Json) (t tl : String)
    (hs : bottlenecksSafe p.toOption = true) :
    builtHtml h r p t tl = some (generateHTMLstr (builtState h r p t) tl) := by
  have hsp : bottlenecksSafe (mkData h r p t).performance = true := by
    rw [mkData_performance]; exact hs
  unfold builtHtml buildResult
  rw [buildSections_safe (mkData h r p t) t hsp]
  rfl

theorem builtState_title (h r p : Except String Json) (t : String) :
    (builtState h r p t).title = "Lab Automation Dashboard" := by
  show (mkData h r p t).title = _
  exact mkData_title h r p t

theorem builtState_health (h r p : Except String Json) (t : String) :
    (builtState h r p t).health = h.toOption := by
  show (mkData h r p t).health = _
  exact mkData_health h r p t

theorem builtState_repositories (h r p : Except String Json) (t : String) :
    (builtState h r p t).repositories = r.toOption := by
  show (mkData h r p t).repositories = _
  exact mkData_repositories h r p t

theorem builtState_performance (h r p : Except String Json) (t : String) :
    (builtState h r p t).performance = p.toOption := by
  show (mkData h r p t).performance = _
  exact mkData_performance h r p t

theorem builtState_alerts (h r p : Except String Json) (t : String) :
    (builtState h r p t).alerts = alertsAfter p.toOption [] := by
  show alertsAfter (mkData h r p t).performance (mkData h r p t).alerts = _
  rw [mkData_performance, mkData_alerts]

theorem isEmpty_false_of_ne_nil {α : Type} {l : List α} (h : l ≠ []) :
    l.isEmpty = false := by
  cases l with
  | nil => exact absurd rfl h
  | cons a as => rfl

/-- C5: with all three report files absent, the build still writes the
rendered HTML document and returns 0, every card renders its no-data
placeholder or documented default, and no field access fails. -/
theorem c5_all_absent (t tl e1 e2 e3 : String) :
    buildResult (.error e1) (.error e2) (.error e3) t tl true
      = .ok (generateHTMLstr (mkData (.error e1) (.error e2) (.error e3) t) tl, 0) ∧
    exitCode (.error e1) (.error e2) (.error e3) t tl true = 0 ∧
    generateHealthMetrics (mkData (.error e1) (.error e2) (.error e3) t)
      = "<p>No health data available</p>" ∧
    generatePerformanceMetrics (mkData (.error e1) (.error e2) (.error e3) t)
      = "<p>No performance data available</p>" ∧
    generateRepoStatus (mkData (.error e1) (.error e2) (.error e3) t)
      = "<p>No repository data available</p>" ∧
    generateAlerts (mkData (.error e1) (.error e2) (.error e3) t)
      = "<p style=\"color: green;\">✓ No active alerts</p>" ∧
    generateLabMetrics (mkData (.error e1) (.error e2) (.error e3) t)
      = "<p>No lab data available</p>" ∧
    generateWorkflowStatus (mkData (.error e1) (.error e2) (.error e3) t)
      = "<p>No workflow data available</p>" ∧
    statusClass (mkData (.error e1) (.error e2) (.error e3) t) = "unknown" ∧
    statusText (mkData (.error e1) (.error e2) (.error e3) t) = "Unknown" :=
  ⟨rfl, rfl, rfl, rfl, rfl, rfl, rfl, rfl, rfl, rfl⟩

/-- C6: whenever the loaded performance report has a non-empty bottlenecks
array (of non-null records), buildSections succeeds and the active alerts
are exactly that list mapped through
b ↦ {severity: b.severity, area: b.area,
     message: "area: current_value (target: target_value)", impact: b.impact}. -/
theorem c6_alerts_from_bottlenecks (d : DashboardData) (t : String) (p : Json)
    (xs : List Json)
    (hp : d.performance = some p) (hb : getProp p "bottlenecks" = some (.arr xs))
    (hne : xs ≠ []) (hnn : xs.all (fun b => !b.isNull) = true) :
    ∃ d', buildSections d t = .ok d' ∧ d'.alerts = xs.map alertOf := by
  have hbot : oget d.performance "bottlenecks" = some (.arr xs) := by
    rw [hp]; exact hb
  have hlen : jsGtZeroU (oget (some (Json.arr xs)) "length") = true := by
    show decide (0 < (xs.length : Int)) = true
    simp only [decide_eq_true_eq]
    exact_mod_cast List.length_pos.mpr hne
  have hsafe : bottlenecksSafe d.performance = true := by
    unfold bottlenecksSafe
    rw [hbot, hlen]
    simpa using hnn
  refine ⟨_, buildSections_safe d t hsafe, ?_⟩
  show alertsAfter d.performance d.alerts = _
  unfold alertsAfter
  rw [hbot, hlen]
  rfl

theorem c6_alerts_witness :
    ∃ d', buildSections (mkData (.error "e") (.error "e")
        (.ok (.obj [("bottlenecks", .arr [.obj [("severity", .str "high"),
          ("area", .str "TAT"), ("current_value", .num 45), ("target_value", .num 30),
          ("impact", .str "delays")]])])) "T") "T" = .ok d' ∧
      d'.alerts = [Json.obj [("severity", .str "high"), ("area", .str "TAT"),
        ("current_value", .num 45), ("target_value", .num 30),
        ("impact", .str "delays")]].map alertOf :=
  c6_alerts_from_bottlenecks _ "T" _ _ rfl rfl (List.cons_ne_nil _ _) rfl

/-- C7 (counterexample): a performance report whose bottlenecks field is a
non-empty string makes the length guard true and `.map` throw: the build
dies with an uncaught TypeError and the process exits 1 even though the
output file was writable — the claim allows a non-zero exit only for write
failures. -/
theorem c7_cex :
    buildResult (.ok (.obj [])) (.error "ENOENT")
        (.ok (.obj [("bottlenecks", .str "instrument down")])) "T" "L" true
      = .error "TypeError: this.dashboardData.performance.bottlenecks.map is not a function" ∧
    exitCode (.ok (.obj [])) (.error "ENOENT")
        (.ok (.obj [("bottlenecks", .str "instrument down")])) "T" "L" true = 1 :=
  ⟨rfl, rfl⟩

/-- C7 (amended): the exit code is 0 exactly when the output file can be
written, and read/parse failures of the input files never make it non-zero —
unless the loaded performance report's bottlenecks value is a non-array with
positive numeric length (e.g. a non-empty string) or an array containing
null, in which case an uncaught TypeError ends the process with exit code 1
before any write. -/
theorem c7_exit_code (h r p : Except String Json) (t tl : String) (w : Bool) :
    (bottlenecksSafe p.toOption = true →
      exitCode h r p t tl w = if w then 0 else 1) ∧
    (bottlenecksSafe p.toOption = false →
      exitCode h r p t tl w = 1) := by
  constructor
  · intro hs
    have hsp : bottlenecksSafe (mkData h r p t).performance = true := by
      rw [mkData_performance]; exact hs
    unfold exitCode buildResult
    rw [buildSections_safe (mkData h r p t) t hsp]
    cases w <;> rfl
  · intro hs
    have hsp : bottlenecksSafe (mkData h r p t).performance = false := by
      rw [mkData_performance]; exact hs
    obtain ⟨e, he⟩ := buildSections_crash (mkData h r p t) t hsp
    unfold exitCode buildResult
    rw [he]

theorem c7_exit_code_witness :
    exitCode (.error "ENOENT") (.error "ENOENT") (.error "SyntaxError") "T" "L" true = 0 ∧
    exitCode (.error "ENOENT") (.error "ENOENT") (.error "SyntaxError") "T" "L" false = 1 :=
  ⟨by simpa using (c7_exit_code (.error "ENOENT") (.error "ENOENT") (.error "SyntaxError") "T" "L" true).1 rfl,
   by simpa using (c7_exit_code (.error "ENOENT") (.error "ENOENT") (.error "SyntaxError") "T" "L" false).1 rfl⟩

/-- C8: for fixed report inputs the HTML output is deterministic up to the
embedded current-time timestamp: two runs produce the same bytes around their
respective timestamps (and in the crashing bottleneck case neither run
produces HTML). -/
theorem c8_deterministic (h r p : Except String Json) (t1 t2 tl1 tl2 : String) :
    (bottlenecksSafe p.toOption = true →
      ∃ pre post,
        builtHtml h r p t1 tl1 = some (pre ++ tl1 ++ post) ∧
        builtHtml h r p t2 tl2 = some (pre ++ tl2 ++ post)) ∧
    (bottlenecksSafe p.toOption = false →
      builtHtml h r p t1 tl1 = none ∧ builtHtml h r p t2 tl2 = none) := by
  constructor
  · intro hs
    refine ⟨htmlBeforeTime (builtState h r p t1), htmlP12, ?_, ?_⟩
    · rw [builtHtml_safe h r p t1 tl1 hs]
      rfl
    · rw [builtHtml_safe h r p t2 tl2 hs,
        @generateHTMLstr_congr (builtState h r p t2) (builtState h r p t1) tl2
          (by simp only [builtState_title])
          (by simp only [builtState_health])
          (by simp only [builtState_performance])
          (by simp only [builtState_repositories])
          (by simp only [builtState_alerts])]
      rfl
  · intro hs
    constructor
    · have hsp : bottlenecksSafe (mkData h r p t1).performance = false := by
        rw [mkData_performance]; exact hs
      obtain ⟨e, he⟩ := buildSections_crash (mkData h r p t1) t1 hsp
      unfold builtHtml buildResult
      rw [he]
    · have hsp : bottlenecksSafe (mkData h r p t2).performance = false := by
        rw [mkData_performance]; exact hs
      obtain ⟨e, he⟩ := buildSections_crash (mkData h r p t2) t2 hsp
      unfold builtHtml buildResult
      rw [he]

theorem c8_deterministic_witness :
    ∃ pre post,
      builtHtml (.error "a") (.error "b") (.error "c") "T1" "L1" = some (pre ++ "L1" ++ post) ∧
      builtHtml (.error "a") (.error "b") (.error "c") "T2" "L2" = some (pre ++ "L2" ++ post) :=
  (c8_deterministic (.error "a") (.error "b") (.error "c") "T1" "T2" "L1" "L2").1 rfl

/-- C9: the rendered HTML shows at most three alert entries — the first
three of the derived alerts, in order — and at most three health-metric
rows — the first three entries of health.metrics, in order — even when the
source lists are longer. -/
theorem c9_at_most_three (d : DashboardData) (hj : Json) (fs : List (String × Json))
    (hal : d.alerts ≠ [])
    (hh : d.health = some hj) (hht : hj.truthy = true)
    (hm : getProp hj "metrics" = some (.obj fs)) :
    generateAlerts d = String.join ((d.alerts.take 3).map renderAlert) ∧
    ((d.alerts.take 3).map renderAlert).length ≤ 3 ∧
    generateAlerts d = generateAlerts { d with alerts := d.alerts.take 3 } ∧
    generateHealthMetrics d = String.join ((fs.take 3).map renderMetric) ∧
    ((fs.take 3).map renderMetric).length ≤ 3 := by
  have hni : d.alerts.isEmpty = false := isEmpty_false_of_ne_nil hal
  have h3 : d.alerts.take 3 ≠ [] := by
    simp [List.take_eq_nil_iff, hal]
  have hni3 : (d.alerts.take 3).isEmpty = false := isEmpty_false_of_ne_nil h3
  refine ⟨?_, ?_, ?_, ?_, ?_⟩
  · unfold generateAlerts
    rw [hni]
    rfl
  · rw [List.length_map, List.length_take]
    exact min_le_left 3 _
  · unfold generateAlerts
    rw [hni]
    show _ = (if ({ d with alerts := d.alerts.take 3 } : DashboardData).alerts.isEmpty
      then "<p style=\"color: green;\">✓ No active alerts</p>"
      else String.join ((({ d with alerts := d.alerts.take 3 } : DashboardData).alerts.take 3).map renderAlert))
    rw [show ({ d with alerts := d.alerts.take 3 } : DashboardData).alerts = d.alerts.take 3 from rfl]
    rw [hni3, List.take_take]
    rfl
  · unfold generateHealthMetrics
    rw [hh]
    simp only [hht, if_true, reduceIte]
    rw [hm]
    rfl
  · rw [List.length_map, List.length_take]
    exact min_le_left 3 _

theorem c9_at_most_three_witness :
    generateAlerts { initData "T" with
        alerts := [⟨some (.str "high"), some (.str "TAT"), "m1", none⟩,
          ⟨some (.str "low"), some (.str "QC"), "m2", none⟩,
          ⟨some (.str "low"), some (.str "IT"), "m3", none⟩,
          ⟨some (.str "low"), some (.str "BB"), "m4", none⟩]
        health := some (.obj [("metrics", .obj [("a", .num 1), ("b", .num 2),
          ("c", .num 3), ("d", .num 4)])]) }
      = String.join ((([⟨some (.str "high"), some (.str "TAT"), "m1", none⟩,
          (⟨some (.str "low"), some (.str "QC"), "m2", none⟩ : Alert),
          ⟨some (.str "low"), some (.str "IT"), "m3", none⟩,
          ⟨some (.str "low"), some (.str "BB"), "m4", none⟩] : List Alert).take 3).map renderAlert) ∧
    generateHealthMetrics { initData "T" with
        alerts := [⟨some (.str "high"), some (.str "TAT"), "m1", none⟩,
          ⟨some (.str "low"), some (.str "QC"), "m2", none⟩,
          ⟨some (.str "low"), some (.str "IT"), "m3", none⟩,
          ⟨some (.str "low"), some (.str "BB"), "m4", none⟩]
        health := some (.obj [("metrics", .obj [("a", .num 1), ("b", .num 2),
          ("c", .num 3), ("d", .num 4)])]) }
      = String.join ((([("a", Json.num 1), ("b", Json.num 2), ("c", Json.num 3),
          ("d", Json.num 4)] : List (String × Json)).take 3).map renderMetric) := by
  have hth := c9_at_most_three
    { initData "T" with
        alerts := [⟨some (.str "high"), some (.str "TAT"), "m1", none⟩,
          ⟨some (.str "low"), some (.str "QC"), "m2", none⟩,
          ⟨some (.str "low"), some (.str "IT"), "m3", none⟩,
          ⟨some (.str "low"), some (.str "BB"), "m4", none⟩]
        health := some (.obj [("metrics", .obj [("a", .num 1), ("b", .num 2),
          ("c", .num 3), ("d", .num 4)])]) }
    (.obj [("metrics", .obj [("a", .num 1), ("b", .num 2), ("c", .num 3), ("d", .num 4)])])
    [("a", .num 1), ("b", .num 2), ("c", .num 3), ("d", .num 4)]
    (List.cons_ne_nil _ _) rfl rfl rfl
  exact ⟨hth.1, hth.2.2.2.1⟩

/-- C10: the generated HTML reads only the title, health, performance,
repositories and alerts fields of the dashboard state — never the sections
array — so for every input the output is identical whether or not the three
section-push statements of buildSections run. -/
theorem c10_sections_unused (d : DashboardData) (t : String) (secs : List Section) :
    generateHTMLstr { d with sections := secs } t = generateHTMLstr d t ∧
    (∀ d', buildSections d t = .ok d' →
      ∃ d'', buildSectionsNoPush d = .ok d'' ∧
        generateHTMLstr d' t = generateHTMLstr d'' t) := by
  constructor
  · rfl
  · intro d' hd'
    cases hsafe : bottlenecksSafe d.performance with
    | false =>
      obtain ⟨e, he⟩ := buildSections_crash d t hsafe
      rw [he] at hd'
      exact absurd hd' (by simp)
    | true =>
      rw [buildSections_safe d t hsafe] at hd'
      injection hd' with hval
      refine ⟨{ d with alerts := alertsAfter d.performance d.alerts },
        buildSectionsNoPush_safe d hsafe, ?_⟩
      rw [← hval]
      exact generateHTMLstr_congr t rfl rfl rfl rfl rfl

theorem c10_sections_unused_witness :
    generateHTMLstr { initData "X" with sections := [] } "Y"
      = generateHTMLstr (initData "X") "Y" ∧
    ∃ d'', buildSectionsNoPush (initData "X") = .ok d'' ∧
      generateHTMLstr { initData "X" with
          sections := [secHealth (initData "X") "Y", secPerf (initData "X"),
            secRepo (initData "X")] } "Y"
        = generateHTMLstr d'' "Y" := by
  have hth := c10_sections_unused (initData "X") "Y" []
  exact ⟨hth.1, hth.2 _ rfl⟩

end LabCrisis
